import Mathlib

/- Verification of the numeric example functions of the GTC 2017 Numba
tutorial notebook (1 - Numba Basics).

Modelling conventions:
- Python float64 arithmetic is modelled exactly over the reals.
- Python run-time failures are explicit: float division by zero raises
  ZeroDivisionError (both in CPython and under the default numba error
  model), an out-of-bounds array access raises IndexError, a missing
  dictionary key raises KeyError, and the numba nopython-mode front end
  raises TypingError on an unsupported argument type.
- NumPy arrays of float64 are modelled as lists of reals; the in-place
  update of the output array by ex1 is modelled by returning the updated
  list together with the error, if any, that stopped the loop. -/

namespace NumbaBasics

/-- Run-time errors that the notebook code can raise. -/
inductive PyErr where
  | zeroDivisionError
  | indexError
  | keyError
  | typeError
  | typingError
  deriving DecidableEq, Repr

/-- Python float division: raises ZeroDivisionError when the divisor is
zero (CPython float semantics, also the default numba error model),
otherwise exact real division. -/
noncomputable def pydiv (a b : ℝ) : Except PyErr ℝ :=
  if b = 0 then .error .zeroDivisionError else .ok (a / b)

/-- The jit-compiled hypot of the notebook (cell 2):
x = abs(x); y = abs(y); t = min(x, y); x = max(x, y); t = t / x;
return x * math.sqrt(1 + t*t). Reassignments of x and t are modelled by
fresh let bindings. -/
noncomputable def hypot (x y : ℝ) : Except PyErr ℝ :=
  let x1 := |x|
  let y1 := |y|
  let t := min x1 y1
  let x2 := max x1 y1
  match pydiv t x2 with
  | .error e => .error e
  | .ok t1 => .ok (x2 * Real.sqrt (1 + t1 * t1))

/-- The original Python function saved by numba in the py_func attribute
(cell 3 shows its code, identical to the decorated body). -/
noncomputable def hypot_py_func (x y : ℝ) : Except PyErr ℝ :=
  let x1 := |x|
  let y1 := |y|
  let t := min x1 y1
  let x2 := max x1 y1
  match pydiv t x2 with
  | .error e => .error e
  | .ok t1 => .ok (x2 * Real.sqrt (1 + t1 * t1))

/-- Read a[i] from a float64 array: in-bounds gives the element, an
out-of-bounds index raises IndexError. -/
def arrGet (a : List ℝ) (i : ℕ) : Except PyErr ℝ :=
  match a.get? i with
  | some v => .ok v
  | none => .error .indexError

/-- Write a[i] = v in a float64 array: in-bounds updates the element, an
out-of-bounds index raises IndexError. -/
def arrSet (a : List ℝ) (i : ℕ) (v : ℝ) : Except PyErr (List ℝ) :=
  if i < a.length then .ok (a.set i v) else .error .indexError

/-- The loop for i in range(x.shape[0]): out[i] = f(x[i], y[i]) shared by
the two versions of ex1, with i the current index and k the number of
iterations left (i + k = x.shape[0] at entry). A raised error stops the
loop; the pair returned is the output array as updated so far together
with that error, if any. -/
noncomputable def ex1Loop (f : ℝ → ℝ → Except PyErr ℝ) (x y : List ℝ) :
    ℕ → ℕ → List ℝ → List ℝ × Option PyErr
  | _, 0, out => (out, none)
  | i, k + 1, out =>
    match arrGet x i with
    | .error e => (out, some e)
    | .ok xi =>
      match arrGet y i with
      | .error e => (out, some e)
      | .ok yi =>
        match f xi yi with
        | .error e => (out, some e)
        | .ok v =>
          match arrSet out i v with
          | .error e => (out, some e)
          | .ok out2 => ex1Loop f x y (i + 1) k out2

/-- The first version of ex1 (cell 23):
for i in range(x.shape[0]): out[i] = x[i] + y[i].
This definition is superseded in the notebook by the redefinition below. -/
noncomputable def ex1_v1 (x y out : List ℝ) : List ℝ × Option PyErr :=
  ex1Loop (fun a b => .ok (a + b)) x y 0 x.length out

/-- The final version of ex1 (cell 24), which redefines the name ex1:
for i in range(x.shape[0]): out[i] = hypot(x[i], y[i]). -/
noncomputable def ex1 (x y out : List ℝ) : List ℝ × Option PyErr :=
  ex1Loop hypot x y 0 x.length out

/-- in1 = np.arange(10, dtype=np.float64) from cell 25. -/
def in1 : List ℝ := (List.range 10).map (fun n : ℕ => (n : ℝ))

/-- in2 = 2 * in1 + 1 (elementwise) from cell 25. -/
def in2 : List ℝ := in1.map (fun v => 2 * v + 1)

/-- Modelled from the spec: the library-provided reference function
np.hypot applied elementwise; on scalars it returns the exact hypotenuse
sqrt(x^2 + y^2). The NumPy library itself is not part of this repository. -/
noncomputable def npHypot (x y : ℝ) : ℝ :=
  Real.sqrt (x ^ 2 + y ^ 2)

/-- Python values that appear in the cannot_compile cells: float64
numbers, strings, and dictionaries with string keys. -/
inductive PyVal where
  | float (v : ℝ)
  | str (s : String)
  | dict (entries : List (String × PyVal))

/-- Python subscript x[k] with a string key: looks the key up when x is a
dictionary (KeyError when absent), TypeError otherwise. -/
def pySubscript (x : PyVal) (k : String) : Except PyErr PyVal :=
  match x with
  | .dict entries =>
    match entries.find? (fun p => p.fst == k) with
    | some p => .ok p.snd
    | none => .error .keyError
  | _ => .error .typeError

/-- The body of cannot_compile (cells 18 and 20): return x[key string]. -/
def cannot_compile_body (x : PyVal) : Except PyErr PyVal :=
  pySubscript x "key"

/-- Modelled from the spec: which argument types the external compiler can
resolve. Numeric scalars are supported; dictionaries (associative
containers) and strings are not. The compiler library is not part of this
repository. -/
def numbaTypeSupported : PyVal → Bool
  | .float _ => true
  | .str _ => false
  | .dict _ => false

/-- Modelled from the spec: the external compiler dispatch for a call of a
jit-decorated one-argument function. When the argument type is resolved,
the type-specialized compilation executes the body; otherwise strict mode
(nopython=True) raises TypingError, while the default mode silently falls
back to the untyped object-mode execution of the original body. -/
def jitCall (nopython : Bool) (body : PyVal → Except PyErr PyVal)
    (x : PyVal) : Except PyErr PyVal :=
  if numbaTypeSupported x then body x
  else if nopython then .error .typingError
  else body x

/-- cannot_compile as decorated with @jit(nopython=True) (cell 20). -/
def cannot_compile_nopython (x : PyVal) : Except PyErr PyVal :=
  jitCall true cannot_compile_body x

/-- cannot_compile as decorated with the default @jit (cell 18). -/
def cannot_compile_objmode (x : PyVal) : Except PyErr PyVal :=
  jitCall false cannot_compile_body x

theorem min_sq_add_max_sq (a b : ℝ) :
    min a b ^ 2 + max a b ^ 2 = a ^ 2 + b ^ 2 := by
  rcases le_total a b with h | h
  · rw [min_eq_left h, max_eq_right h]
  · rw [min_eq_right h, max_eq_left h, add_comm]

theorem hypot_eq_ok (x y : ℝ) (h : max |x| |y| ≠ 0) :
    hypot x y = .ok (Real.sqrt (x ^ 2 + y ^ 2)) := by
  have hmax : (0 : ℝ) < max |x| |y| :=
    lt_of_le_of_ne ((abs_nonneg x).trans (le_max_left _ _)) (Ne.symm h)
  have hdiv : pydiv (min |x| |y|) (max |x| |y|) =
      .ok (min |x| |y| / max |x| |y|) := by
    rw [pydiv, if_neg h]
  simp only [hypot, hdiv]
  congr 1
  set m := max |x| |y| with hm
  set t := min |x| |y| with ht
  have h1 : 1 + t / m * (t / m) = (m ^ 2 + t ^ 2) / m ^ 2 := by
    field_simp
    ring
  have hsum : m ^ 2 + t ^ 2 = x ^ 2 + y ^ 2 := by
    rw [hm, ht, add_comm, min_sq_add_max_sq, sq_abs, sq_abs]
  rw [h1, Real.sqrt_div (by positivity), Real.sqrt_sq hmax.le, hsum]
  field_simp

theorem hypot_error_eq (x y : ℝ) (e : PyErr) (h : hypot x y = .error e) :
    e = .zeroDivisionError := by
  by_cases h0 : max |x| |y| = 0
  · have hd : pydiv (min |x| |y|) (max |x| |y|) = .error .zeroDivisionError := by
      rw [pydiv, if_pos h0]
    simp only [hypot, hd] at h
    injection h with h
    exact h.symm
  · rw [hypot_eq_ok x y h0] at h
    exact absurd h (by simp)

theorem hypot_ne_index_error (a b : ℝ) : hypot a b ≠ .error .indexError := by
  intro h
  have := hypot_error_eq a b _ h
  exact absurd this (by decide)

theorem hypot_eval_three_four : hypot 3 4 = .ok 5 := by
  rw [hypot_eq_ok]
  · congr 1
    rw [show (3 : ℝ) ^ 2 + 4 ^ 2 = 5 ^ 2 by norm_num,
      Real.sqrt_sq (by norm_num : (0 : ℝ) ≤ 5)]
  · rw [abs_of_nonneg (by norm_num : (0 : ℝ) ≤ 3),
      abs_of_nonneg (by norm_num : (0 : ℝ) ≤ 4)]
    norm_num

theorem hypot_py_func_eq_hypot (x y : ℝ) : hypot_py_func x y = hypot x y := rfl

theorem arrGet_ok (a : List ℝ) (i : ℕ) (h : i < a.length) :
    arrGet a i = .ok (a.getD i 0) := by
  rw [arrGet, List.get?_eq_get h, List.getD_eq_getElem a 0 h]
  rfl

theorem arrSet_ok (a : List ℝ) (i : ℕ) (v : ℝ) (h : i < a.length) :
    arrSet a i v = .ok (a.set i v) := by
  rw [arrSet, if_pos h]

theorem ex1Loop_zero (f : ℝ → ℝ → Except PyErr ℝ) (x y : List ℝ)
    (i : ℕ) (out : List ℝ) : ex1Loop f x y i 0 out = (out, none) := rfl

theorem ex1Loop_err_x (f : ℝ → ℝ → Except PyErr ℝ) (x y : List ℝ)
    (k i : ℕ) (out : List ℝ) (e : PyErr) (hx : arrGet x i = .error e) :
    ex1Loop f x y i (k + 1) out = (out, some e) := by
  simp only [ex1Loop, hx]

theorem ex1Loop_err_y (f : ℝ → ℝ → Except PyErr ℝ) (x y : List ℝ)
    (k i : ℕ) (out : List ℝ) (xi : ℝ) (e : PyErr)
    (hx : arrGet x i = .ok xi) (hyv : arrGet y i = .error e) :
    ex1Loop f x y i (k + 1) out = (out, some e) := by
  simp only [ex1Loop, hx, hyv]

theorem ex1Loop_err_f (f : ℝ → ℝ → Except PyErr ℝ) (x y : List ℝ)
    (k i : ℕ) (out : List ℝ) (xi yi : ℝ) (e : PyErr)
    (hx : arrGet x i = .ok xi) (hyv : arrGet y i = .ok yi)
    (hfv : f xi yi = .error e) :
    ex1Loop f x y i (k + 1) out = (out, some e) := by
  simp only [ex1Loop, hx, hyv, hfv]

theorem ex1Loop_err_set (f : ℝ → ℝ → Except PyErr ℝ) (x y : List ℝ)
    (k i : ℕ) (out : List ℝ) (xi yi v : ℝ) (e : PyErr)
    (hx : arrGet x i = .ok xi) (hyv : arrGet y i = .ok yi)
    (hfv : f xi yi = .ok v) (hs : arrSet out i v = .error e) :
    ex1Loop f x y i (k + 1) out = (out, some e) := by
  simp only [ex1Loop, hx, hyv, hfv, hs]

theorem ex1Loop_succ_ok (f : ℝ → ℝ → Except PyErr ℝ) (x y : List ℝ)
    (k i : ℕ) (out : List ℝ) (xi yi v : ℝ) (out2 : List ℝ)
    (hx : arrGet x i = .ok xi) (hyv : arrGet y i = .ok yi)
    (hfv : f xi yi = .ok v) (hs : arrSet out i v = .ok out2) :
    ex1Loop f x y i (k + 1) out = ex1Loop f x y (i + 1) k out2 := by
  simp only [ex1Loop, hx, hyv, hfv, hs]

theorem ex1Loop_frame (f : ℝ → ℝ → Except PyErr ℝ) (x y : List ℝ) :
    ∀ (k i : ℕ) (out : List ℝ) (j : ℕ), j < i ∨ i + k ≤ j →
      ((ex1Loop f x y i k out).fst).get? j = out.get? j := by
  intro k
  induction k with
  | zero => intro i out j _; rfl
  | succ k ih =>
    intro i out j hj
    cases hx : arrGet x i with
    | error e => rw [ex1Loop_err_x f x y k i out e hx]
    | ok xi =>
      cases hyv : arrGet y i with
      | error e => rw [ex1Loop_err_y f x y k i out xi e hx hyv]
      | ok yi =>
        cases hf : f xi yi with
        | error e => rw [ex1Loop_err_f f x y k i out xi yi e hx hyv hf]
        | ok v =>
          cases hs : arrSet out i v with
          | error e => rw [ex1Loop_err_set f x y k i out xi yi v e hx hyv hf hs]
          | ok out2 =>
            have hset : out2.get? j = out.get? j := by
              rw [arrSet] at hs
              by_cases hlen : i < out.length
              · rw [if_pos hlen] at hs
                injection hs with hs
                rw [← hs]
                exact List.get?_set_ne v out (by omega)
              · rw [if_neg hlen] at hs
                exact absurd hs (by simp)
            rw [ex1Loop_succ_ok f x y k i out xi yi v out2 hx hyv hf hs,
              ih (i + 1) out2 j (by omega), hset]

theorem ex1Loop_spec (f : ℝ → ℝ → Except PyErr ℝ) (x y : List ℝ) (g : ℕ → ℝ)
    (hy : x.length ≤ y.length) :
    ∀ (k i : ℕ) (out : List ℝ), i + k = x.length → x.length ≤ out.length →
      (∀ j, i ≤ j → j < x.length → f (x.getD j 0) (y.getD j 0) = .ok (g j)) →
      (ex1Loop f x y i k out).snd = none ∧
      (ex1Loop f x y i k out).fst.length = out.length ∧
      ∀ j, i ≤ j → j < x.length →
        ((ex1Loop f x y i k out).fst).get? j = some (g j) := by
  intro k
  induction k with
  | zero =>
    intro i out hik hout hval
    exact ⟨rfl, rfl, fun j hj hjx => absurd hjx (by omega)⟩
  | succ k ih =>
    intro i out hik hout hval
    have hi : i < x.length := by omega
    have hiy : i < y.length := lt_of_lt_of_le hi hy
    have hio : i < out.length := lt_of_lt_of_le hi hout
    simp only [ex1Loop, arrGet_ok x i hi, arrGet_ok y i hiy,
      hval i le_rfl hi, arrSet_ok out i (g i) hio]
    obtain ⟨h1, h2, h3⟩ := ih (i + 1) (out.set i (g i)) (by omega)
      (by rw [List.length_set]; exact hout)
      (fun j hj hjx => hval j (by omega) hjx)
    refine ⟨h1, by rw [h2, List.length_set], ?_⟩
    intro j hj hjx
    rcases eq_or_lt_of_le hj with heq | hlt
    · subst heq
      rw [ex1Loop_frame f x y k (i + 1) (out.set i (g i)) i (Or.inl (by omega)),
        List.get?_set_eq_of_lt (g i) hio]
    · exact h3 j hlt hjx

theorem ex1Loop_no_index_error (f : ℝ → ℝ → Except PyErr ℝ) (x y : List ℝ)
    (hf : ∀ a b, f a b ≠ .error .indexError) (hy : x.length ≤ y.length) :
    ∀ (k i : ℕ) (out : List ℝ), i + k ≤ x.length → x.length ≤ out.length →
      (ex1Loop f x y i k out).snd ≠ some .indexError := by
  intro k
  induction k with
  | zero => intro i out _ _; simp [ex1Loop]
  | succ k ih =>
    intro i out hik hout
    have hi : i < x.length := by omega
    have hiy : i < y.length := lt_of_lt_of_le hi hy
    have hio : i < out.length := lt_of_lt_of_le hi hout
    cases hfv : f (x.getD i 0) (y.getD i 0) with
    | error e =>
      rw [ex1Loop_err_f f x y k i out _ _ e (arrGet_ok x i hi)
        (arrGet_ok y i hiy) hfv]
      intro h
      injection h with h
      exact hf _ _ (h ▸ hfv)
    | ok v =>
      rw [ex1Loop_succ_ok f x y k i out _ _ v (out.set i v) (arrGet_ok x i hi)
        (arrGet_ok y i hiy) hfv (arrSet_ok out i v hio)]
      exact ih (i + 1) (out.set i v) (by omega)
        (by rw [List.length_set]; exact hout)

theorem in1_len : in1.length = 10 := by
  rw [in1, List.length_map, List.length_range]

theorem in2_len : in2.length = 10 := by
  rw [in2, List.length_map, in1_len]

theorem in1_getD (j : ℕ) (hj : j < 10) : in1.getD j 0 = (j : ℝ) := by
  rw [in1, List.getD_eq_getD_get?, List.get?_map, List.get?_range hj]
  rfl

theorem in2_getD (j : ℕ) (hj : j < 10) : in2.getD j 0 = 2 * (j : ℝ) + 1 := by
  rw [in2, List.getD_eq_getD_get?, List.get?_map, in1, List.get?_map,
    List.get?_range hj]
  rfl

theorem fixed_nonzero (j : ℕ) (hj : j < 10) :
    max |in1.getD j 0| |in2.getD j 0| ≠ 0 := by
  have h2 : (0 : ℝ) < in2.getD j 0 := by
    rw [in2_getD j hj]
    positivity
  have hmax : (0 : ℝ) < max |in1.getD j 0| |in2.getD j 0| :=
    lt_of_lt_of_le (abs_pos.mpr (ne_of_gt h2)) (le_max_right _ _)
  exact ne_of_gt hmax

theorem ex1_single_eval : ex1 [3] [4] [0] = ([5], none) := by
  rw [ex1]
  show ex1Loop hypot [3] [4] 0 (0 + 1) [0] = ([5], none)
  rw [ex1Loop_succ_ok hypot [3] [4] 0 0 [0] 3 4 5 [5] rfl rfl
    hypot_eval_three_four rfl, ex1Loop_zero]

/-- Claim C1: for every pair of float inputs, the jit-compiled hypot and
the original Python function saved in hypot.py_func return the same
result (the returned value and the raised error, if any, both agree). -/
theorem hypot_jit_eq_py_func (x y : ℝ) : hypot x y = hypot_py_func x y := rfl

/-- Claim C2: on inputs 3.0 and 4.0, both the jit-compiled hypot and the
original hypot.py_func yield exactly 5.0. -/
theorem hypot_three_four_five :
    hypot 3 4 = .ok 5 ∧ hypot_py_func 3 4 = .ok 5 :=
  ⟨hypot_eval_three_four,
    (hypot_py_func_eq_hypot 3 4).trans hypot_eval_three_four⟩

/-- Claim C3 counterexample: the routine bound to the name ex1 at the end
of the notebook does not compute the element-wise sum: on x = [3],
y = [4], out = [0] it stores hypot 3 4 = 5 at index 0, not 3 + 4 = 7. -/
theorem ex1_not_elementwise_sum :
    ¬ ((ex1 [3] [4] [0]).fst.getD 0 0 = (3 : ℝ) + 4) := by
  rw [ex1_single_eval]
  norm_num

/-- Claim C3 (amended): the first version of ex1 (cell 23, before the
notebook redefines the name in cell 24) computes the element-wise array
sum: for arrays y and out at least as long as x, after the call the entry
of the output at every index i below x.length equals x[i] + y[i]. -/
theorem ex1_v1_elementwise_sum (x y out : List ℝ)
    (hy : x.length ≤ y.length) (ho : x.length ≤ out.length)
    (i : ℕ) (hi : i < x.length) :
    ((ex1_v1 x y out).fst).get? i = some (x.getD i 0 + y.getD i 0) := by
  obtain ⟨-, -, h3⟩ := ex1Loop_spec (fun a b => .ok (a + b)) x y
    (fun j => x.getD j 0 + y.getD j 0) hy x.length 0 out (by omega) ho
    (fun j _ _ => rfl)
  exact h3 i (Nat.zero_le i) hi

/-- Witness for the amended claim C3 at x = [3], y = [4], out = [0]. -/
theorem ex1_v1_elementwise_sum_witness :
    ((ex1_v1 [3] [4] [0]).fst).get? 0 = some ((3 : ℝ) + 4) := by
  have h := ex1_v1_elementwise_sum [3] [4] [0] (by simp) (by simp) 0 (by simp)
  rw [h]
  rfl

/-- Claim C4: for the fixed inputs in1 = arange(10, float64) and
in2 = 2 * in1 + 1, the output array produced by ex1 agrees elementwise
with the reference np.hypot(in1, in2); the agreement is exact equality,
hence in particular almost-equality. -/
theorem ex1_matches_np_hypot (out0 : List ℝ) (h : out0.length = 10)
    (i : ℕ) (hi : i < 10) :
    ((ex1 in1 in2 out0).fst).get? i =
      some (npHypot (in1.getD i 0) (in2.getD i 0)) := by
  have hlen1 : in1.length = 10 := in1_len
  have hlen2 : in2.length = 10 := in2_len
  obtain ⟨-, -, h3⟩ := ex1Loop_spec hypot in1 in2
    (fun j => npHypot (in1.getD j 0) (in2.getD j 0))
    (by omega) in1.length 0 out0 (by omega) (by omega)
    (fun j _ hjx => by
      rw [hypot_eq_ok _ _ (fixed_nonzero j (by omega))]
      rfl)
  exact h3 i (Nat.zero_le i) (by omega)

/-- Witness for claim C4 at index 0 with a zero-initialised output. -/
theorem ex1_matches_np_hypot_witness :
    ((ex1 in1 in2 (List.replicate 10 (0 : ℝ))).fst).get? 0 =
      some (npHypot (in1.getD 0 0) (in2.getD 0 0)) :=
  ex1_matches_np_hypot (List.replicate 10 0) (by simp) 0 (by norm_num)

/-- Claim C5: under strict mode (nopython=True), passing a dictionary (an
unsupported associative container) to cannot_compile raises the external
compiler TypingError and returns no value. -/
theorem cannot_compile_nopython_typing_error
    (entries : List (String × PyVal)) :
    cannot_compile_nopython (.dict entries) = .error .typingError := rfl

/-- Claim C6: under the default compilation mode, passing the dictionary
with key mapped to the string value to cannot_compile does not raise: the
call falls back to the untyped object-mode execution and returns the
dictionary lookup result, the string value. -/
theorem cannot_compile_objmode_value :
    cannot_compile_objmode (.dict [("key", .str "value")]) =
      .ok (.str "value") := rfl

/-- Claim C7 counterexample: at x = 0, y = 0 the division t / x in hypot
divides by zero, so the call raises ZeroDivisionError instead of
returning a value: the claim that every operation completes normally for
every pair of inputs is false. -/
theorem hypot_zero_zero_raises :
    hypot 0 0 = .error .zeroDivisionError ∧
      ¬ ∃ r, hypot 0 0 = .ok r := by
  have h0 : max |(0 : ℝ)| |(0 : ℝ)| = 0 := by simp
  have hd : pydiv (min |(0 : ℝ)| |(0 : ℝ)|) (max |(0 : ℝ)| |(0 : ℝ)|) =
      .error .zeroDivisionError := by
    rw [pydiv, if_pos h0]
  constructor
  · simp only [hypot, hd]
  · intro ⟨r, hr⟩
    simp only [hypot, hd] at hr
    exact absurd hr (by simp)

/-- Claim C7 (amended): for every pair of inputs other than x = y = 0
(equivalently, whenever max(|x|, |y|) ≠ 0), every operation in hypot,
including the division t / x, completes normally and a value is
returned. -/
theorem hypot_total_off_origin (x y : ℝ) (h : max |x| |y| ≠ 0) :
    ∃ r, hypot x y = .ok r :=
  ⟨_, hypot_eq_ok x y h⟩

/-- Witness for the amended claim C7 at x = 3, y = 4. -/
theorem hypot_total_off_origin_witness : ∃ r, hypot 3 4 = .ok r :=
  hypot_total_off_origin 3 4 (by positivity)

/-- Claim C8: hypot is symmetric in its arguments whenever
max(|x|, |y|) is nonzero, because the body depends on its inputs only
through abs, min and max. -/
theorem hypot_symm (x y : ℝ) (h : max |x| |y| ≠ 0) :
    hypot x y = hypot y x := by
  simp only [hypot, min_comm, max_comm]

/-- Witness for claim C8 at x = 3, y = 4. -/
theorem hypot_symm_witness : hypot 3 4 = hypot 4 3 :=
  hypot_symm 3 4 (by positivity)

/-- Claim C9: ex1 modifies only the first x.length entries of the output
array: with y and out at least as long as x, every entry of out at or
beyond x.length keeps its prior value (the input arrays x and y are read
only and unchanged by construction in this functional model). -/
theorem ex1_frame_property (x y out : List ℝ)
    (hy : x.length ≤ y.length) (ho : x.length ≤ out.length)
    (j : ℕ) (hj : x.length ≤ j) :
    ((ex1 x y out).fst).get? j = out.get? j :=
  ex1Loop_frame hypot x y x.length 0 out j (Or.inr (by omega))

/-- Witness for claim C9: on x = [3], y = [4, 7], out = [0, 9], the entry
at index 1 of the output keeps its prior value 9. -/
theorem ex1_frame_property_witness :
    ((ex1 [3] [4, 7] [0, 9]).fst).get? 1 = ([0, 9] : List ℝ).get? 1 :=
  ex1_frame_property [3] [4, 7] [0, 9] (by simp) (by simp) 1 (by simp)

/-- Claim C10: when y and out each have length at least x.length, every
index access performed by ex1 is within bounds, so the IndexError branch
is unreachable (and the loop, bounded by x.length, is total by
construction). -/
theorem ex1_no_index_error (x y out : List ℝ)
    (hy : x.length ≤ y.length) (ho : x.length ≤ out.length) :
    (ex1 x y out).snd ≠ some .indexError :=
  ex1Loop_no_index_error hypot x y hypot_ne_index_error hy
    x.length 0 out (by omega) ho

/-- Witness for claim C10 at x = [3], y = [4], out = [0]. -/
theorem ex1_no_index_error_witness :
    (ex1 [3] [4] [0]).snd ≠ some PyErr.indexError :=
  ex1_no_index_error [3] [4] [0] (by simp) (by simp)

end NumbaBasics
